import Mathlib

/-!
Verification of the ISCN karyotype validator (parser, rule catalog, rule
engine) against its natural-language specification.  The Python sources in
iscn_authenticator/ are embedded shallowly: regular-expression patterns
become recognizer functions on lists of characters, parse methods that
raise ParseError become functions into Except String, the dataclasses
become structures, and the rule catalog becomes lists of rule records.
-/

namespace ISCN

/-! ## String helpers (Python built-ins used by the source) -/

/-- The whitespace characters stripped by the Python str.strip method
(ASCII subset; the inputs of interest are ASCII). -/
def isSpaceC (c : Char) : Bool :=
  c = ' ' || c = '\t' || c = '\n' || c = '\r' || c = '\x0b' || c = '\x0c'

/-- str.strip on a list of characters: drop whitespace from both ends. -/
def pyStripL (cs : List Char) : List Char :=
  ((cs.dropWhile isSpaceC).reverse.dropWhile isSpaceC).reverse

/-- Build a String from a list of characters. -/
def strOf (cs : List Char) : String := String.mk cs

/-- str.strip on a String. -/
def pyStrip (s : String) : String := strOf (pyStripL s.toList)

/-- Auxiliary for splitOn: returns the first group and the remaining groups. -/
def splitOnAux (sep : Char) : List Char → List Char × List (List Char)
  | [] => ([], [])
  | c :: cs =>
    if c = sep then ([], (splitOnAux sep cs).1 :: (splitOnAux sep cs).2)
    else (c :: (splitOnAux sep cs).1, (splitOnAux sep cs).2)

/-- Python str.split with a one-character separator (always nonempty). -/
def splitOn (sep : Char) (cs : List Char) : List (List Char) :=
  (splitOnAux sep cs).1 :: (splitOnAux sep cs).2

/-- Split at the first occurrence of a character: the part before (which
does not contain it) and the part after.  none if the character is absent. -/
def splitFirst (sep : Char) : List Char → Option (List Char × List Char)
  | [] => none
  | c :: cs =>
    if c = sep then some ([], cs)
    else
      match splitFirst sep cs with
      | none => none
      | some (a, b) => some (c :: a, b)

/-- Python str.startswith on lists of characters. -/
def startsWithL : List Char → List Char → Bool
  | [], _ => true
  | _ :: _, [] => false
  | p :: ps, c :: cs => p = c && startsWithL ps cs

/-- Python str.endswith on lists of characters. -/
def endsWithL (suf cs : List Char) : Bool :=
  startsWithL suf.reverse cs.reverse

/-- Drop a literal leading sequence, none when it is not there. -/
def stripLead : List Char → List Char → Option (List Char)
  | [], cs => some cs
  | _ :: _, [] => none
  | p :: ps, c :: cs => if p = c then stripLead ps cs else none

/-- Substring containment test (used to talk about error-message text). -/
def containsSeg (pat : List Char) : List Char → Bool
  | [] => pat.isEmpty
  | c :: cs => startsWithL pat (c :: cs) || containsSeg pat cs

/-- Numeric value of a decimal digit run, as Python int() computes it. -/
def digitsNat (cs : List Char) : Nat :=
  cs.foldl (fun a c => a * 10 + (c.toNat - 48)) 0

/-- Python str.isdigit restricted to the ASCII decimal digits. -/
def pyIsdigit (cs : List Char) : Bool :=
  !cs.isEmpty && cs.all Char.isDigit

/-! ## Data model (models.py) -/

/-- A chromosomal breakpoint such as p11.2 or q34 (models.Breakpoint). -/
structure Breakpoint where
  arm : String
  region : Option Int
  band : Option Int
  subband : Option String
  uncertain : Bool
deriving DecidableEq

/-- A chromosomal abnormality (models.Abnormality). -/
structure Abnormality where
  type : String
  chromosome : String
  breakpoints : List Breakpoint
  inheritance : Option String
  uncertain : Bool
  copy_count : Option Int
  raw : String
deriving DecidableEq

/-- Karyotype-level modifier flags (models.Modifiers). -/
structure Modifiers where
  mosaic : Bool := false
  chimera : Bool := false
  constitutional : Bool := false
  incomplete : Bool := false
deriving DecidableEq

/-- The chromosome_count field is an int or a range string such as 45~48. -/
inductive ChromCount where
  | num (n : Int)
  | range (s : String)
deriving DecidableEq

/-- One cell line of a mosaic karyotype (models.CellLine). -/
structure CellLine where
  chromosome_count : ChromCount
  sex_chromosomes : String
  abnormalities : List Abnormality
  count : Int
  is_donor : Bool := false
deriving DecidableEq

/-- Abstract syntax tree of a parsed karyotype (models.KaryotypeAST). -/
structure KaryotypeAST where
  chromosome_count : ChromCount
  sex_chromosomes : String
  abnormalities : List Abnormality
  cell_lines : Option (List CellLine)
  modifiers : Option Modifiers
deriving DecidableEq

/-- Result of a validation call (models.ValidationResult). -/
structure ValidationResult where
  valid : Bool
  errors : List String
  parsed : Option KaryotypeAST
deriving DecidableEq

/-! ## Pattern recognizers (the compiled regular expressions of parser.py)

Each recognizer implements, deterministically, the anchored pattern it is
named after; backtracking never changes the outcome for these patterns
because every group is delimited by a character its character class
excludes. -/

/-- The chromosome-identifier alternative used inside most patterns:
one or two decimal digits, or a single X or Y. -/
def isChrIdChars (cs : List Char) : Bool :=
  cs = ['X'] || cs = ['Y'] ||
    (decide (1 ≤ cs.length) && decide (cs.length ≤ 2) && cs.all Char.isDigit)

/-- SEX_CHROMOSOMES_PATTERN: one or more of X, Y, U. -/
def matchSexChromosomes (cs : List Char) : Bool :=
  !cs.isEmpty && cs.all (fun c => c = 'X' || c = 'Y' || c = 'U')

/-- NUMERICAL_ABNORMALITY_PATTERN: a sign followed by a chromosome id;
returns the sign character (group 1) and the id characters (group 2). -/
def matchNumerical (cs : List Char) : Option (Char × List Char) :=
  match cs with
  | sign :: rest =>
    if (sign = '+' || sign = '-') && isChrIdChars rest then some (sign, rest)
    else none
  | [] => none

/-- BREAKPOINT_PATTERN: arm in p or q, a nonempty digit run, and an
optional dot-separated nonempty digit run. -/
def matchBreakpoint (cs : List Char) : Option (Char × List Char × Option (List Char)) :=
  match cs with
  | a :: rest =>
    if a = 'p' || a = 'q' then
      let ds := rest.takeWhile Char.isDigit
      let r1 := rest.dropWhile Char.isDigit
      if ds.isEmpty then none
      else
        match r1 with
        | [] => some (a, ds, none)
        | '.' :: sub =>
          if !sub.isEmpty && sub.all Char.isDigit then some (a, ds, some sub)
          else none
        | _ => none
    else none
  | [] => none

/-- One group of the inline multi-breakpoint patterns:
arm, digit run, optional dot and digit run; returns the consumed group and
the remaining characters.  When a dot is not followed by digits the dot is
left unconsumed, exactly as the regex optional group declines to match. -/
def takeBp (cs : List Char) : Option (List Char × List Char) :=
  match cs with
  | a :: rest =>
    if a = 'p' || a = 'q' then
      let ds := rest.takeWhile Char.isDigit
      let r1 := rest.dropWhile Char.isDigit
      if ds.isEmpty then none
      else
        match r1 with
        | '.' :: r2 =>
          let ds2 := r2.takeWhile Char.isDigit
          let r3 := r2.dropWhile Char.isDigit
          if ds2.isEmpty then some (a :: ds, r1)
          else some (a :: ds ++ '.' :: ds2, r3)
        | _ => some (a :: ds, r1)
    else none
  | [] => none

/-- The two-consecutive-breakpoints pattern used for del, dup, inv, r and
the insertion segment. -/
def matchDouble (cs : List Char) : Option (List Char × List Char) :=
  match takeBp cs with
  | some (g1, rest) =>
    match takeBp rest with
    | some (g2, []) => some (g1, g2)
    | _ => none
  | none => none

/-- The three-consecutive-breakpoints pattern of intrachromosomal
insertions. -/
def matchTriple (cs : List Char) : Option (List Char × List Char × List Char) :=
  match takeBp cs with
  | some (g1, rest) =>
    match takeBp rest with
    | some (g2, rest2) =>
      match takeBp rest2 with
      | some (g3, []) => some (g1, g2, g3)
      | _ => none
    | none => none
  | none => none

/-- The closing part of a two-parenthesized-group pattern: an opening
parenthesis, a nonempty interior without a closing parenthesis, and a
closing parenthesis ending the string. -/
def matchGroupTail (rest1 : List Char) : Option (List Char) :=
  match rest1 with
  | '(' :: rest2 =>
    match rest2.getLast? with
    | some c =>
      if c = ')' then
        let interior := rest2.dropLast
        if !interior.isEmpty && !interior.contains ')' then some interior
        else none
      else none
    | none => none
  | _ => none

/-- The shared shape of DELETION, DUPLICATION, INVERSION, the long
isochromosome form, the ring breakpoint form, HSR_LOCATION and ADD:
a literal opening, a chromosome id, and a parenthesized interior. -/
def matchChrBp (pre cs : List Char) : Option (List Char × List Char) :=
  match stripLead pre cs with
  | some rest =>
    match splitFirst ')' rest with
    | some (g1, rest1) =>
      if isChrIdChars g1 then
        match matchGroupTail rest1 with
        | some interior => some (g1, interior)
        | none => none
      else none
    | none => none
  | none => none

/-- TRANSLOCATION_PATTERN and INSERTION_PATTERN: a literal opening, a
nonempty first group without a closing parenthesis, and a parenthesized
interior. -/
def matchTwoGroups (pre cs : List Char) : Option (List Char × List Char) :=
  match stripLead pre cs with
  | some rest =>
    match splitFirst ')' rest with
    | some (g1, rest1) =>
      if !g1.isEmpty then
        match matchGroupTail rest1 with
        | some interior => some (g1, interior)
        | none => none
      else none
    | none => none
  | none => none

/-- ISOCHROMOSOME_SHORT_PATTERN: i(, a chromosome id, an arm letter, ). -/
def matchIsoShort (cs : List Char) : Option (List Char × Char) :=
  match stripLead ("i(".toList) cs with
  | some rest =>
    match rest.getLast? with
    | some c =>
      if c = ')' then
        let inside := rest.dropLast
        match inside.getLast? with
        | some a =>
          if (a = 'p' || a = 'q') && isChrIdChars inside.dropLast then
            some (inside.dropLast, a)
          else none
        | none => none
      else none
    | none => none
  | none => none

/-- RING_SIMPLE_PATTERN: r(, a chromosome id, ). -/
def matchRingSimple (cs : List Char) : Option (List Char) :=
  match stripLead ("r(".toList) cs with
  | some rest =>
    match rest.getLast? with
    | some c =>
      if c = ')' && isChrIdChars rest.dropLast then some rest.dropLast
      else none
    | none => none
  | none => none

/-- MARKER_PATTERN: a plus sign, an optional digit run, the literal mar,
and an optional digit run; returns the two digit groups. -/
def matchMarker (cs : List Char) : Option (List Char × List Char) :=
  match cs with
  | '+' :: rest =>
    let g1 := rest.takeWhile Char.isDigit
    let r2 := rest.dropWhile Char.isDigit
    match stripLead ("mar".toList) r2 with
    | some g2 => if g2.all Char.isDigit then some (g1, g2) else none
    | none => none
  | _ => none

/-- DERIVATIVE_PATTERN: der(, a chromosome id, ), then a nonempty rest on
one line (the dot of the pattern does not cross a newline). -/
def matchDer (cs : List Char) : Option (List Char × List Char) :=
  match stripLead ("der(".toList) cs with
  | some rest =>
    match splitFirst ')' rest with
    | some (g1, g2) =>
      if isChrIdChars g1 && !g2.isEmpty && g2.all (fun c => c != '\n') then
        some (g1, g2)
      else none
    | none => none
  | none => none

/-- The bracketed cell-count suffix of CELL_LINE_COUNT_PATTERN: an opening
bracket, a nonempty digit run, and a closing bracket ending the string. -/
def isBracketCount : List Char → Option (List Char)
  | '[' :: rest =>
    let ds := rest.takeWhile Char.isDigit
    match rest.dropWhile Char.isDigit with
    | [']'] => if ds.isEmpty then none else some ds
    | _ => none
  | _ => none

/-- Worker for matchCellCount: consume body characters one at a time (the
lazy group takes the shortest body) and test whether the remainder is the
bracketed count. -/
def ccGo (acc : List Char) : List Char → Option (List Char × List Char)
  | [] => none
  | c :: rest =>
    if c = '\n' then none
    else
      match isBracketCount rest with
      | some ds => some (acc ++ [c], ds)
      | none => ccGo (acc ++ [c]) rest

/-- CELL_LINE_COUNT_PATTERN: a nonempty lazy body followed by a bracketed
digit count ending the string. -/
def matchCellCount (cs : List Char) : Option (List Char × List Char) :=
  ccGo [] cs

/-! ## Parser (parser.py), with ParseError embedded as Except.error -/

/-- KaryotypeParser._parse_breakpoint. -/
def parse_breakpoint (bp_str : String) : Except String Breakpoint :=
  match matchBreakpoint bp_str.toList with
  | none => .error ("Invalid breakpoint format: \x27" ++ bp_str ++ "\x27")
  | some (a, ds, sub) =>
    let region : Int := if 2 ≤ ds.length then (digitsNat (ds.take 1) : Int) else (digitsNat ds : Int)
    let band : Int := if 2 ≤ ds.length then (digitsNat (ds.drop 1) : Int) else 0
    .ok { arm := strOf [a], region := some region, band := some band,
          subband := sub.map strOf, uncertain := false }

/-- KaryotypeParser._parse_deletion. -/
def parse_deletion (part : String) : Except String Abnormality :=
  match matchChrBp ("del(".toList) part.toList with
  | none => .error ("Invalid deletion format: \x27" ++ part ++ "\x27")
  | some (chr, bpStr) =>
    match matchDouble bpStr with
    | some (g1, g2) =>
      match parse_breakpoint (strOf g1) with
      | .error e => .error e
      | .ok b1 =>
        match parse_breakpoint (strOf g2) with
        | .error e => .error e
        | .ok b2 =>
          .ok { type := "del", chromosome := strOf chr, breakpoints := [b1, b2],
                inheritance := none, uncertain := false, copy_count := none, raw := part }
    | none =>
      match parse_breakpoint (strOf bpStr) with
      | .error e => .error e
      | .ok b =>
        .ok { type := "del", chromosome := strOf chr, breakpoints := [b],
              inheritance := none, uncertain := false, copy_count := none, raw := part }

/-- KaryotypeParser._parse_duplication. -/
def parse_duplication (part : String) : Except String Abnormality :=
  match matchChrBp ("dup(".toList) part.toList with
  | none => .error ("Invalid duplication format: \x27" ++ part ++ "\x27")
  | some (chr, bpStr) =>
    match matchDouble bpStr with
    | some (g1, g2) =>
      match parse_breakpoint (strOf g1) with
      | .error e => .error e
      | .ok b1 =>
        match parse_breakpoint (strOf g2) with
        | .error e => .error e
        | .ok b2 =>
          .ok { type := "dup", chromosome := strOf chr, breakpoints := [b1, b2],
                inheritance := none, uncertain := false, copy_count := none, raw := part }
    | none =>
      match parse_breakpoint (strOf bpStr) with
      | .error e => .error e
      | .ok b =>
        .ok { type := "dup", chromosome := strOf chr, breakpoints := [b],
              inheritance := none, uncertain := false, copy_count := none, raw := part }

/-- KaryotypeParser._parse_inversion: two breakpoints are mandatory. -/
def parse_inversion (part : String) : Except String Abnormality :=
  match matchChrBp ("inv(".toList) part.toList with
  | none => .error ("Invalid inversion format: \x27" ++ part ++ "\x27")
  | some (chr, bpStr) =>
    match matchDouble bpStr with
    | some (g1, g2) =>
      match parse_breakpoint (strOf g1) with
      | .error e => .error e
      | .ok b1 =>
        match parse_breakpoint (strOf g2) with
        | .error e => .error e
        | .ok b2 =>
          .ok { type := "inv", chromosome := strOf chr, breakpoints := [b1, b2],
                inheritance := none, uncertain := false, copy_count := none, raw := part }
    | none => .error ("Inversion requires two breakpoints: \x27" ++ part ++ "\x27")

/-- The breakpoint list comprehension of _parse_translocation: strip and
parse each semicolon-separated segment in order. -/
def parseBpList : List (List Char) → Except String (List Breakpoint)
  | [] => .ok []
  | bp :: rest =>
    match parse_breakpoint (strOf (pyStripL bp)) with
    | .error e => .error e
    | .ok b =>
      match parseBpList rest with
      | .error e => .error e
      | .ok bs => .ok (b :: bs)

/-- KaryotypeParser._parse_translocation. -/
def parse_translocation (part : String) : Except String Abnormality :=
  match matchTwoGroups ("t(".toList) part.toList with
  | none => .error ("Invalid translocation format: \x27" ++ part ++ "\x27")
  | some (chrs, bps) =>
    match parseBpList (splitOn ';' bps) with
    | .error e => .error e
    | .ok breakpoints =>
      .ok { type := "t", chromosome := strOf chrs, breakpoints := breakpoints,
            inheritance := none, uncertain := false, copy_count := none, raw := part }

/-- KaryotypeParser._parse_isochromosome: short form, then long form. -/
def parse_isochromosome (part : String) : Except String Abnormality :=
  match matchIsoShort part.toList with
  | some (chr, a) =>
    .ok { type := "i", chromosome := strOf chr,
          breakpoints := [{ arm := strOf [a], region := some 1, band := some 0,
                            subband := none, uncertain := false }],
          inheritance := none, uncertain := false, copy_count := none, raw := part }
  | none =>
    match matchChrBp ("i(".toList) part.toList with
    | some (chr, bpStr) =>
      match parse_breakpoint (strOf bpStr) with
      | .error e => .error e
      | .ok b =>
        .ok { type := "i", chromosome := strOf chr, breakpoints := [b],
              inheritance := none, uncertain := false, copy_count := none, raw := part }
    | none => .error ("Invalid isochromosome format: \x27" ++ part ++ "\x27")

/-- KaryotypeParser._parse_ring: the simple form, then the breakpoint form
whose interior yields two breakpoints when it matches the double pattern
and no breakpoints otherwise. -/
def parse_ring (part : String) : Except String Abnormality :=
  match matchRingSimple part.toList with
  | some chr =>
    .ok { type := "r", chromosome := strOf chr, breakpoints := [],
          inheritance := none, uncertain := false, copy_count := none, raw := part }
  | none =>
    match matchChrBp ("r(".toList) part.toList with
    | some (chr, bpStr) =>
      match matchDouble bpStr with
      | some (g1, g2) =>
        match parse_breakpoint (strOf g1) with
        | .error e => .error e
        | .ok b1 =>
          match parse_breakpoint (strOf g2) with
          | .error e => .error e
          | .ok b2 =>
            .ok { type := "r", chromosome := strOf chr, breakpoints := [b1, b2],
                  inheritance := none, uncertain := false, copy_count := none, raw := part }
      | none =>
        .ok { type := "r", chromosome := strOf chr, breakpoints := [],
              inheritance := none, uncertain := false, copy_count := none, raw := part }
    | none => .error ("Invalid ring chromosome format: \x27" ++ part ++ "\x27")

/-- KaryotypeParser._parse_insertion. -/
def parse_insertion (part : String) : Except String Abnormality :=
  match matchTwoGroups ("ins(".toList) part.toList with
  | none => .error ("Invalid insertion format: \x27" ++ part ++ "\x27")
  | some (chrs, bps) =>
    if bps.contains ';' then
      match splitOn ';' bps with
      | bp0 :: bp1 :: _ =>
        match parse_breakpoint (strOf (pyStripL bp0)) with
        | .error e => .error e
        | .ok b0 =>
          match matchDouble (pyStripL bp1) with
          | some (g1, g2) =>
            match parse_breakpoint (strOf g1) with
            | .error e => .error e
            | .ok b1 =>
              match parse_breakpoint (strOf g2) with
              | .error e => .error e
              | .ok b2 =>
                .ok { type := "ins", chromosome := strOf chrs,
                      breakpoints := [b0, b1, b2], inheritance := none,
                      uncertain := false, copy_count := none, raw := part }
          | none =>
            match parse_breakpoint (strOf (pyStripL bp1)) with
            | .error e => .error e
            | .ok b1 =>
              .ok { type := "ins", chromosome := strOf chrs, breakpoints := [b0, b1],
                    inheritance := none, uncertain := false, copy_count := none, raw := part }
      | _ =>
        -- unreachable: a list containing a semicolon splits into at least two parts
        .error ("Invalid insertion breakpoints: \x27" ++ strOf bps ++ "\x27")
    else
      match matchTriple bps with
      | some (g1, g2, g3) =>
        match parse_breakpoint (strOf g1) with
        | .error e => .error e
        | .ok b1 =>
          match parse_breakpoint (strOf g2) with
          | .error e => .error e
          | .ok b2 =>
            match parse_breakpoint (strOf g3) with
            | .error e => .error e
            | .ok b3 =>
              .ok { type := "ins", chromosome := strOf chrs,
                    breakpoints := [b1, b2, b3], inheritance := none,
                    uncertain := false, copy_count := none, raw := part }
      | none => .error ("Invalid insertion breakpoints: \x27" ++ strOf bps ++ "\x27")

/-- KaryotypeParser._parse_add. -/
def parse_add (part : String) : Except String Abnormality :=
  match matchChrBp ("add(".toList) part.toList with
  | none => .error ("Invalid additional material format: \x27" ++ part ++ "\x27")
  | some (chr, bpStr) =>
    match parse_breakpoint (strOf bpStr) with
    | .error e => .error e
    | .ok b =>
      .ok { type := "add", chromosome := strOf chr, breakpoints := [b],
            inheritance := none, uncertain := false, copy_count := none, raw := part }

/-- Overwrite the bookkeeping fields of a sub-parser result, as the
dispatch loop of _parse_abnormalities does after each structural parse. -/
def withMeta (r : Except String Abnormality) (original : String)
    (uncertain : Bool) (inheritance : Option String) : Except String Abnormality :=
  match r with
  | .error e => .error e
  | .ok a => .ok { a with uncertain := uncertain, inheritance := inheritance, raw := original }

/-- The lower half of the abnormality dispatch: the branches after the
prefix-recognized structural forms (marker, derivative, double minutes,
homogeneously staining region, unknown). -/
def dispatchTail (part2 : List Char) (original : String) (uncertain : Bool)
    (inheritance : Option String) : Except String Abnormality :=
    match matchMarker part2 with
    | some (g1, g2) =>
      .ok { type := "+mar",
            chromosome := if g2.isEmpty then "mar" else "mar" ++ strOf g2,
            breakpoints := [], inheritance := inheritance, uncertain := uncertain,
            copy_count := if g1.isEmpty then none else some (digitsNat g1 : Int),
            raw := original }
    | none =>
    match matchDer part2 with
    | some (chr, _) =>
      .ok { type := "der", chromosome := strOf chr, breakpoints := [],
            inheritance := inheritance, uncertain := uncertain, copy_count := none,
            raw := original }
    | none =>
    if part2 = "dmin".toList then
      .ok { type := "dmin", chromosome := "", breakpoints := [],
            inheritance := inheritance, uncertain := uncertain, copy_count := none,
            raw := original }
    else
      match matchChrBp ("hsr(".toList) part2 with
      | some (chr, bpStr) =>
        match parse_breakpoint (strOf bpStr) with
        | .error e => .error e
        | .ok b =>
          .ok { type := "hsr", chromosome := strOf chr, breakpoints := [b],
                inheritance := inheritance, uncertain := uncertain, copy_count := none,
                raw := original }
      | none =>
      if part2 = "hsr".toList then
        .ok { type := "hsr", chromosome := "", breakpoints := [],
              inheritance := inheritance, uncertain := uncertain, copy_count := none,
              raw := original }
      else
        .ok { type := "unknown", chromosome := "", breakpoints := [],
              inheritance := inheritance, uncertain := uncertain, copy_count := none,
              raw := original }

/-- The priority-ordered dispatch of _parse_abnormalities on one token
(after the uncertainty and inheritance markers have been stripped): the
numerical pattern, then the prefix-recognized structural forms in source
order, then the remaining branches. -/
def dispatch (part2 : List Char) (original : String) (uncertain : Bool)
    (inheritance : Option String) : Except String Abnormality :=
  match matchNumerical part2 with
  | some (sign, chrom) =>
    .ok { type := strOf [sign], chromosome := strOf chrom, breakpoints := [],
          inheritance := inheritance, uncertain := uncertain, copy_count := none,
          raw := original }
  | none =>
  if startsWithL ("del(".toList) part2 then
    withMeta (parse_deletion (strOf part2)) original uncertain inheritance
  else if startsWithL ("add(".toList) part2 then
    withMeta (parse_add (strOf part2)) original uncertain inheritance
  else if startsWithL ("dup(".toList) part2 then
    withMeta (parse_duplication (strOf part2)) original uncertain inheritance
  else if startsWithL ("inv(".toList) part2 then
    withMeta (parse_inversion (strOf part2)) original uncertain inheritance
  else if startsWithL ("t(".toList) part2 then
    withMeta (parse_translocation (strOf part2)) original uncertain inheritance
  else if startsWithL ("ins(".toList) part2 then
    withMeta (parse_insertion (strOf part2)) original uncertain inheritance
  else if startsWithL ("i(".toList) part2 then
    withMeta (parse_isochromosome (strOf part2)) original uncertain inheritance
  else if startsWithL ("r(".toList) part2 then
    withMeta (parse_ring (strOf part2)) original uncertain inheritance
  else dispatchTail part2 original uncertain inheritance

/-- The leading uncertainty marker removal of the dispatch loop: drop a
leading question mark when present. -/
def stripUncertainty (cs : List Char) : List Char :=
  if startsWithL ['?'] cs then cs.drop 1 else cs

/-- One iteration of the _parse_abnormalities loop body on a nonempty
stripped token: strip the leading uncertainty marker, then a trailing
inheritance suffix, then dispatch. -/
def parse_one (original : String) : Except String Abnormality :=
  if endsWithL ("mat".toList) (stripUncertainty original.toList) then
    dispatch ((stripUncertainty original.toList).take
        ((stripUncertainty original.toList).length - 3))
      original (startsWithL ['?'] original.toList) (some "mat")
  else if endsWithL ("pat".toList) (stripUncertainty original.toList) then
    dispatch ((stripUncertainty original.toList).take
        ((stripUncertainty original.toList).length - 3))
      original (startsWithL ['?'] original.toList) (some "pat")
  else if endsWithL ("dn".toList) (stripUncertainty original.toList) then
    dispatch ((stripUncertainty original.toList).take
        ((stripUncertainty original.toList).length - 2))
      original (startsWithL ['?'] original.toList) (some "dn")
  else
    dispatch (stripUncertainty original.toList) original
      (startsWithL ['?'] original.toList) none

/-- KaryotypeParser._parse_abnormalities: strip each token, skip empty
ones, parse the rest in order. -/
def parse_abnormalities : List String → Except String (List Abnormality)
  | [] => .ok []
  | p :: ps =>
    if (pyStrip p).toList = [] then parse_abnormalities ps
    else
      match parse_one (pyStrip p) with
      | .error e => .error e
      | .ok a =>
        match parse_abnormalities ps with
        | .error e => .error e
        | .ok rest => .ok (a :: rest)

/-- KaryotypeParser._parse_chromosome_count. -/
def parse_chromosome_count (count_str : String) : Except String ChromCount :=
  let t := pyStrip count_str
  if t.toList.contains '~' then .ok (.range t)
  else if pyIsdigit t.toList then .ok (.num (digitsNat t.toList : Int))
  else .error ("Invalid chromosome count: \x27" ++ t ++ "\x27 is not a number")

/-- KaryotypeParser._parse_sex_chromosomes. -/
def parse_sex_chromosomes (sex_str : String) : Except String String :=
  let t := pyStrip sex_str
  if matchSexChromosomes t.toList then .ok t
  else .error ("Invalid sex chromosomes: \x27" ++ t ++ "\x27 must contain only X, Y, or U")

/-- The comma-splitting core of _parse_single_karyotype: field 0 is the
chromosome count, field 1 the sex chromosomes, the rest the abnormality
tokens; fewer than two fields means the comma separator is missing. -/
def parseSingleCore (kary : String) (count : Int) : Except String (KaryotypeAST × Int) :=
  match splitOn ',' kary.toList with
  | p0 :: p1 :: rest2 =>
    (match parse_chromosome_count (strOf p0) with
     | .error e => .error e
     | .ok cc =>
       match parse_sex_chromosomes (strOf p1) with
       | .error e => .error e
       | .ok sex =>
         match parse_abnormalities (rest2.map strOf) with
         | .error e => .error e
         | .ok abns =>
           .ok ({ chromosome_count := cc, sex_chromosomes := sex,
                  abnormalities := abns, cell_lines := none, modifiers := none },
                count))
  | _ => .error "Missing comma separator between chromosome count and sex chromosomes"

/-- KaryotypeParser._parse_single_karyotype; with extract_count set, a
trailing bracketed cell count is removed first (defaulting to 0). -/
def parse_single (karyotype : String) (extract_count : Bool) :
    Except String (KaryotypeAST × Int) :=
  if extract_count then
    match matchCellCount karyotype.toList with
    | some (body, ds) => parseSingleCore (strOf body) (digitsNat ds : Int)
    | none => parseSingleCore karyotype 0
  else parseSingleCore karyotype 0

/-- The cell-line loop of _parse_mosaic: strip each segment, parse it with
count extraction, and package it as a CellLine. -/
def parseCellLines : List (List Char) → Except String (List CellLine)
  | [] => .ok []
  | l :: ls =>
    match parse_single (strOf (pyStripL l)) true with
    | .error e => .error e
    | .ok pr =>
      match parseCellLines ls with
      | .error e => .error e
      | .ok rest =>
        .ok ({ chromosome_count := pr.1.chromosome_count,
               sex_chromosomes := pr.1.sex_chromosomes,
               abnormalities := pr.1.abnormalities,
               count := pr.2, is_donor := false } :: rest)

/-- KaryotypeParser._parse_mosaic: split on the slash, parse every cell
line, and mirror the first cell line at top level. -/
def parse_mosaic (karyotype : String) : Except String KaryotypeAST :=
  match parseCellLines (splitOn '/' karyotype.toList) with
  | .error e => .error e
  | .ok [] =>
    -- unreachable: splitOn always produces at least one segment
    .error "Karyotype string is empty"
  | .ok (first :: rest) =>
    .ok { chromosome_count := first.chromosome_count,
          sex_chromosomes := first.sex_chromosomes,
          abnormalities := first.abnormalities,
          cell_lines := some (first :: rest), modifiers := none }

/-- KaryotypeParser.parse: reject blank input, strip, and dispatch on the
mosaic separator. -/
def parse (karyotype : String) : Except String KaryotypeAST :=
  if (pyStrip karyotype).toList = [] then .error "Karyotype string is empty"
  else if (pyStrip karyotype).toList.contains '/' then parse_mosaic (pyStrip karyotype)
  else
    match parse_single (pyStrip karyotype) false with
    | .error e => .error e
    | .ok pr => .ok pr.1

/-! ## Rule catalog (rules/chromosome.py and rules/abnormality.py) -/

/-- rules/chromosome.py _validate_chromosome_count_numeric. -/
def validate_chromosome_count_numeric (ast : KaryotypeAST) (_t : KaryotypeAST) : List String :=
  match ast.chromosome_count with
  | .range s =>
    if s.toList.contains '~' then []
    else ["Chromosome count \x27" ++ s ++ "\x27 is not numeric"]
  | .num _ => []

/-- rules/chromosome.py _validate_chromosome_count_range. -/
def validate_chromosome_count_range (ast : KaryotypeAST) (_t : KaryotypeAST) : List String :=
  match ast.chromosome_count with
  | .range _ => []
  | .num count =>
    if count < 23 ∨ count > 92 then
      ["Chromosome count " ++ toString count ++ " is outside valid range (must be between 23 and 92)"]
    else []

/-- rules/chromosome.py _validate_sex_chromosomes_valid. -/
def validate_sex_chromosomes_valid (ast : KaryotypeAST) (_t : KaryotypeAST) : List String :=
  let sex := ast.sex_chromosomes
  if sex = "U" then []
  else if sex.toList.contains 'X' then []
  else ["Sex chromosomes \x27" ++ sex ++ "\x27 must contain at least one X chromosome"]

/-- rules/chromosome.py _validate_sex_chromosomes_coherence: strict
coherence is only enforced at counts 46 and 45 and only when the AST
lists no abnormalities. -/
def validate_sex_chromosomes_coherence (ast : KaryotypeAST) (_t : KaryotypeAST) : List String :=
  match ast.chromosome_count with
  | .range _ => []
  | .num count =>
    if ast.sex_chromosomes = "U" then []
    else
      let sex := ast.sex_chromosomes
      let sex_count := sex.length
      if ast.abnormalities.isEmpty then
        if count = 46 ∧ sex_count ≠ 2 then
          ["Chromosome count 46 requires 2 sex chromosomes, but found " ++
            toString sex_count ++ " (\x27" ++ sex ++ "\x27)"]
        else if count = 45 ∧ sex_count ≠ 1 then
          ["Chromosome count 45 requires 1 sex chromosome, but found " ++
            toString sex_count ++ " (\x27" ++ sex ++ "\x27)"]
        else []
      else []

/-- rules/abnormality.py VALID_CHROMOSOMES: the autosomes 1 to 22 plus
X and Y. -/
def VALID_CHROMOSOMES : List String :=
  ((List.range 22).map (fun i => toString (i + 1))) ++ ["X", "Y"]

/-- rules/abnormality.py _validate_numerical_chromosome. -/
def validate_numerical_chromosome (_ast : KaryotypeAST) (abn : Abnormality) : List String :=
  if abn.type = "+" ∨ abn.type = "-" then
    if VALID_CHROMOSOMES.contains abn.chromosome then []
    else ["Invalid chromosome \x27" ++ abn.chromosome ++ "\x27 in " ++ abn.raw ++
          ". Must be 1-22, X, or Y"]
  else []

/-- rules/abnormality.py _validate_breakpoint_arm. -/
def validate_breakpoint_arm (_ast : KaryotypeAST) (abn : Abnormality) : List String :=
  if abn.type = "+" ∨ abn.type = "-" ∨ abn.type = "unknown" then []
  else
    abn.breakpoints.foldl
      (fun errs bp =>
        if bp.arm = "p" ∨ bp.arm = "q" then errs
        else errs ++ ["Invalid breakpoint arm \x27" ++ bp.arm ++ "\x27 in " ++
                      abn.raw ++ ". Must be \x27p\x27 or \x27q\x27"])
      []

/-- rules/abnormality.py _validate_inversion_two_breakpoints. -/
def validate_inversion_two_breakpoints (_ast : KaryotypeAST) (abn : Abnormality) : List String :=
  if abn.type ≠ "inv" then []
  else
    let bp_count := abn.breakpoints.length
    if bp_count ≠ 2 then
      ["Inversion requires two breakpoints, found " ++ toString bp_count ++ " in " ++ abn.raw]
    else []

/-- rules/abnormality.py _validate_translocation_breakpoint_count. -/
def validate_translocation_breakpoint_count (_ast : KaryotypeAST) (abn : Abnormality) : List String :=
  if abn.type ≠ "t" then []
  else
    let chr_count := (splitOn ';' abn.chromosome.toList).length
    let bp_count := abn.breakpoints.length
    if chr_count ≠ bp_count then
      ["Translocation has " ++ toString chr_count ++ " chromosomes but " ++
        toString bp_count ++ " breakpoints in " ++ abn.raw]
    else []

/-- rules/abnormality.py _validate_deletion_breakpoints. -/
def validate_deletion_breakpoints (_ast : KaryotypeAST) (abn : Abnormality) : List String :=
  if abn.type ≠ "del" then []
  else
    let bp_count := abn.breakpoints.length
    if bp_count ≠ 1 ∧ bp_count ≠ 2 then
      ["Deletion requires one or two breakpoints, found " ++ toString bp_count ++ " in " ++ abn.raw]
    else
      match abn.breakpoints with
      | [b1, b2] =>
        if b1.arm ≠ b2.arm then
          ["Interstitial deletion breakpoints must be on same arm, found " ++
            b1.arm ++ " and " ++ b2.arm ++ " in " ++ abn.raw]
        else []
      | _ => []

/-- rules/abnormality.py _validate_duplication_breakpoints. -/
def validate_duplication_breakpoints (_ast : KaryotypeAST) (abn : Abnormality) : List String :=
  if abn.type ≠ "dup" then []
  else
    let bp_count := abn.breakpoints.length
    if bp_count ≠ 1 ∧ bp_count ≠ 2 then
      ["Duplication requires one or two breakpoints, found " ++ toString bp_count ++ " in " ++ abn.raw]
    else
      match abn.breakpoints with
      | [b1, b2] =>
        if b1.arm ≠ b2.arm then
          ["Duplication breakpoints must be on same arm, found " ++
            b1.arm ++ " and " ++ b2.arm ++ " in " ++ abn.raw]
        else []
      | _ => []

/-- rules/abnormality.py _validate_ring_chromosome_breakpoints. -/
def validate_ring_chromosome_breakpoints (_ast : KaryotypeAST) (abn : Abnormality) : List String :=
  if abn.type ≠ "r" then []
  else
    match abn.breakpoints with
    | [b1, b2] =>
      if b1.arm = b2.arm then
        ["Ring chromosome breakpoints must be on different arms, found " ++
          b1.arm ++ " and " ++ b2.arm ++ " in " ++ abn.raw]
      else []
    | bps =>
      ["Ring chromosome requires two breakpoints, found " ++ toString bps.length ++ " in " ++ abn.raw]

/-- rules/abnormality.py _validate_isochromosome_breakpoints. -/
def validate_isochromosome_breakpoints (_ast : KaryotypeAST) (abn : Abnormality) : List String :=
  if abn.type ≠ "i" then []
  else
    let bp_count := abn.breakpoints.length
    if bp_count ≠ 1 then
      ["Isochromosome requires one breakpoint, found " ++ toString bp_count ++ " in " ++ abn.raw]
    else []

/-- rules/abnormality.py _validate_triplication_breakpoints. -/
def validate_triplication_breakpoints (_ast : KaryotypeAST) (abn : Abnormality) : List String :=
  if abn.type ≠ "trp" then []
  else
    match abn.breakpoints with
    | [b1, b2] =>
      if b1.arm ≠ b2.arm then
        ["Triplication breakpoints must be on same arm, found " ++
          b1.arm ++ " and " ++ b2.arm ++ " in " ++ abn.raw]
      else []
    | bps =>
      ["Triplication requires two breakpoints, found " ++ toString bps.length ++ " in " ++ abn.raw]

/-- rules/abnormality.py _validate_quadruplication_breakpoints. -/
def validate_quadruplication_breakpoints (_ast : KaryotypeAST) (abn : Abnormality) : List String :=
  if abn.type ≠ "qdp" then []
  else
    match abn.breakpoints with
    | [b1, b2] =>
      if b1.arm ≠ b2.arm then
        ["Quadruplication breakpoints must be on same arm, found " ++
          b1.arm ++ " and " ++ b2.arm ++ " in " ++ abn.raw]
      else []
    | bps =>
      ["Quadruplication requires two breakpoints, found " ++ toString bps.length ++ " in " ++ abn.raw]

/-- rules/abnormality.py _validate_dicentric_breakpoints. -/
def validate_dicentric_breakpoints (_ast : KaryotypeAST) (abn : Abnormality) : List String :=
  if abn.type ≠ "dic" then []
  else
    let chr_count := (splitOn ';' abn.chromosome.toList).length
    let bp_count := abn.breakpoints.length
    if chr_count ≠ bp_count then
      ["Dicentric has " ++ toString chr_count ++ " chromosomes but " ++
        toString bp_count ++ " breakpoints in " ++ abn.raw]
    else []

/-- rules/abnormality.py _validate_isodicentric_breakpoints. -/
def validate_isodicentric_breakpoints (_ast : KaryotypeAST) (abn : Abnormality) : List String :=
  if abn.type ≠ "idic" then []
  else
    let bp_count := abn.breakpoints.length
    if bp_count ≠ 1 then
      ["Isodicentric requires one breakpoint, found " ++ toString bp_count ++ " in " ++ abn.raw]
    else []

/-- rules/abnormality.py _validate_robertsonian_breakpoints. -/
def validate_robertsonian_breakpoints (_ast : KaryotypeAST) (abn : Abnormality) : List String :=
  if abn.type ≠ "rob" then []
  else
    let chr_count := (splitOn ';' abn.chromosome.toList).length
    let bp_count := abn.breakpoints.length
    if chr_count ≠ bp_count then
      ["Robertsonian translocation has " ++ toString chr_count ++ " chromosomes but " ++
        toString bp_count ++ " breakpoints in " ++ abn.raw]
    else []

/-- rules/abnormality.py _validate_add_breakpoints. -/
def validate_add_breakpoints (_ast : KaryotypeAST) (abn : Abnormality) : List String :=
  if abn.type ≠ "add" then []
  else
    let bp_count := abn.breakpoints.length
    if bp_count ≠ 1 then
      ["Add requires one breakpoint, found " ++ toString bp_count ++ " in " ++ abn.raw]
    else []

/-- rules/abnormality.py _validate_fra_breakpoints. -/
def validate_fra_breakpoints (_ast : KaryotypeAST) (abn : Abnormality) : List String :=
  if abn.type ≠ "fra" then []
  else
    let bp_count := abn.breakpoints.length
    if bp_count ≠ 1 then
      ["Fragile site requires one breakpoint, found " ++ toString bp_count ++ " in " ++ abn.raw]
    else []

/-- rules/abnormality.py _validate_ins_breakpoints. -/
def validate_ins_breakpoints (_ast : KaryotypeAST) (abn : Abnormality) : List String :=
  if abn.type ≠ "ins" then []
  else
    let bp_count := abn.breakpoints.length
    if bp_count ≠ 3 then
      ["Insertion requires three breakpoints, found " ++ toString bp_count ++ " in " ++ abn.raw]
    else []

/-- rules/abnormality.py _validate_dmin_breakpoints. -/
def validate_dmin_breakpoints (_ast : KaryotypeAST) (abn : Abnormality) : List String :=
  if abn.type ≠ "dmin" then []
  else
    let bp_count := abn.breakpoints.length
    if bp_count ≠ 0 then
      ["Double minutes should have no breakpoints, found " ++ toString bp_count ++ " in " ++ abn.raw]
    else []

/-- rules/abnormality.py _validate_hsr_breakpoints. -/
def validate_hsr_breakpoints (_ast : KaryotypeAST) (abn : Abnormality) : List String :=
  if abn.type ≠ "hsr" then []
  else
    let bp_count := abn.breakpoints.length
    if bp_count > 1 then
      ["HSR should have zero or one breakpoint, found " ++ toString bp_count ++ " in " ++ abn.raw]
    else []

/-- rules/abnormality.py _validate_mar_breakpoints: scoped to the type
tag mar. -/
def validate_mar_breakpoints (_ast : KaryotypeAST) (abn : Abnormality) : List String :=
  if abn.type ≠ "mar" then []
  else
    let bp_count := abn.breakpoints.length
    if bp_count ≠ 0 then
      ["Marker chromosome should have no breakpoints, found " ++ toString bp_count ++ " in " ++ abn.raw]
    else []

/-- rules/abnormality.py _validate_pseudodicentric_breakpoints. -/
def validate_pseudodicentric_breakpoints (_ast : KaryotypeAST) (abn : Abnormality) : List String :=
  if abn.type ≠ "psu dic" then []
  else
    let chr_count := (splitOn ';' abn.chromosome.toList).length
    let bp_count := abn.breakpoints.length
    if chr_count ≠ bp_count then
      ["Pseudodicentric has " ++ toString chr_count ++ " chromosomes but " ++
        toString bp_count ++ " breakpoints in " ++ abn.raw]
    else []

/-- rules/abnormality.py _validate_acentric_breakpoints. -/
def validate_acentric_breakpoints (_ast : KaryotypeAST) (abn : Abnormality) : List String :=
  if abn.type ≠ "ace" then []
  else
    let bp_count := abn.breakpoints.length
    if bp_count ≠ 1 ∧ bp_count ≠ 2 then
      ["Acentric fragment requires 1-2 breakpoints, found " ++ toString bp_count ++ " in " ++ abn.raw]
    else []

/-- rules/abnormality.py _validate_telomeric_association_breakpoints. -/
def validate_telomeric_association_breakpoints (_ast : KaryotypeAST) (abn : Abnormality) : List String :=
  if abn.type ≠ "tas" then []
  else
    let chr_count := (splitOn ';' abn.chromosome.toList).length
    let bp_count := abn.breakpoints.length
    if chr_count ≠ bp_count then
      ["Telomeric association has " ++ toString chr_count ++ " chromosomes but " ++
        toString bp_count ++ " breakpoints in " ++ abn.raw]
    else []

/-- rules/abnormality.py _validate_fission_breakpoints. -/
def validate_fission_breakpoints (_ast : KaryotypeAST) (abn : Abnormality) : List String :=
  if abn.type ≠ "fis" then []
  else
    let bp_count := abn.breakpoints.length
    if bp_count ≠ 1 then
      ["Fission requires one breakpoint, found " ++ toString bp_count ++ " in " ++ abn.raw]
    else []

/-- rules/abnormality.py _validate_neocentromere_breakpoints. -/
def validate_neocentromere_breakpoints (_ast : KaryotypeAST) (abn : Abnormality) : List String :=
  if abn.type ≠ "neo" then []
  else
    let bp_count := abn.breakpoints.length
    if bp_count ≠ 1 then
      ["Neocentromere requires one breakpoint, found " ++ toString bp_count ++ " in " ++ abn.raw]
    else []

/-- rules/abnormality.py _validate_incomplete_breakpoints. -/
def validate_incomplete_breakpoints (_ast : KaryotypeAST) (abn : Abnormality) : List String :=
  if abn.type ≠ "inc" then []
  else
    let bp_count := abn.breakpoints.length
    if bp_count ≠ 0 then
      ["Incomplete karyotype marker should have no breakpoints, found " ++
        toString bp_count ++ " in " ++ abn.raw]
    else []

/-! ## Rule records, catalogs, engine (rules/base.py, engine.py, main.py) -/

/-- A rule applied once per AST (rules/base.py Rule with an AST target). -/
structure ASTRule where
  id : String
  category : String
  description : String
  validate : KaryotypeAST → KaryotypeAST → List String

/-- A rule applied once per abnormality (rules/base.py Rule with an
Abnormality target). -/
structure AbnRule where
  id : String
  category : String
  description : String
  validate : KaryotypeAST → Abnormality → List String

/-- rules/chromosome.py ALL_CHROMOSOME_RULES, in catalog order. -/
def ALL_CHROMOSOME_RULES : List ASTRule :=
  [ { id := "CHR_COUNT_NUMERIC", category := "chromosome_count",
      description := "Chromosome count must be numeric or valid range notation",
      validate := validate_chromosome_count_numeric },
    { id := "CHR_COUNT_RANGE", category := "chromosome_count",
      description := "Chromosome count must be between 23 and 92",
      validate := validate_chromosome_count_range },
    { id := "SEX_CHR_VALID", category := "sex_chromosomes",
      description := "Sex chromosomes must contain at least one X",
      validate := validate_sex_chromosomes_valid },
    { id := "SEX_CHR_COHERENCE", category := "coherence",
      description := "Chromosome count must be coherent with sex chromosome count",
      validate := validate_sex_chromosomes_coherence } ]

/-- rules/abnormality.py ALL_ABNORMALITY_RULES, in catalog order. -/
def ALL_ABNORMALITY_RULES : List AbnRule :=
  [ { id := "ABN_NUM_CHR_VALID", category := "abnormality",
      description := "Numerical abnormality chromosome must be 1-22, X, or Y",
      validate := validate_numerical_chromosome },
    { id := "ABN_BP_ARM_VALID", category := "abnormality",
      description := "Breakpoint arm must be p or q",
      validate := validate_breakpoint_arm },
    { id := "ABN_INV_TWO_BP", category := "abnormality",
      description := "Inversion must have exactly two breakpoints",
      validate := validate_inversion_two_breakpoints },
    { id := "ABN_TRANS_BP_COUNT", category := "abnormality",
      description := "Translocation breakpoint count must match chromosome count",
      validate := validate_translocation_breakpoint_count },
    { id := "ABN_DEL_BP", category := "abnormality",
      description := "Deletion must have 1-2 breakpoints, interstitial requires same arm",
      validate := validate_deletion_breakpoints },
    { id := "ABN_DUP_BP", category := "abnormality",
      description := "Duplication must have 1-2 breakpoints, interstitial requires same arm",
      validate := validate_duplication_breakpoints },
    { id := "ABN_RING_BP", category := "abnormality",
      description := "Ring chromosome must have 2 breakpoints on different arms",
      validate := validate_ring_chromosome_breakpoints },
    { id := "ABN_ISO_BP", category := "abnormality",
      description := "Isochromosome must have exactly 1 breakpoint",
      validate := validate_isochromosome_breakpoints },
    { id := "ABN_TRP_BP", category := "abnormality",
      description := "Triplication must have 2 breakpoints on same arm",
      validate := validate_triplication_breakpoints },
    { id := "ABN_QDP_BP", category := "abnormality",
      description := "Quadruplication must have 2 breakpoints on same arm",
      validate := validate_quadruplication_breakpoints },
    { id := "ABN_DIC_BP", category := "abnormality",
      description := "Dicentric breakpoint count must match chromosome count",
      validate := validate_dicentric_breakpoints },
    { id := "ABN_IDIC_BP", category := "abnormality",
      description := "Isodicentric must have exactly 1 breakpoint",
      validate := validate_isodicentric_breakpoints },
    { id := "ABN_ROB_BP", category := "abnormality",
      description := "Robertsonian translocation breakpoint count must match chromosome count",
      validate := validate_robertsonian_breakpoints },
    { id := "ABN_ADD_BP", category := "abnormality",
      description := "Add (additional material) must have exactly 1 breakpoint",
      validate := validate_add_breakpoints },
    { id := "ABN_FRA_BP", category := "abnormality",
      description := "Fragile site must have exactly 1 breakpoint",
      validate := validate_fra_breakpoints },
    { id := "ABN_INS_BP", category := "abnormality",
      description := "Insertion must have exactly 3 breakpoints",
      validate := validate_ins_breakpoints },
    { id := "ABN_DMIN_BP", category := "abnormality",
      description := "Double minutes must have no breakpoints",
      validate := validate_dmin_breakpoints },
    { id := "ABN_HSR_BP", category := "abnormality",
      description := "HSR must have 0 or 1 breakpoint",
      validate := validate_hsr_breakpoints },
    { id := "ABN_MAR_BP", category := "abnormality",
      description := "Marker chromosome must have no breakpoints",
      validate := validate_mar_breakpoints },
    { id := "ABN_PSU_DIC_BP", category := "abnormality",
      description := "Pseudodicentric breakpoint count must match chromosome count",
      validate := validate_pseudodicentric_breakpoints },
    { id := "ABN_ACE_BP", category := "abnormality",
      description := "Acentric fragment must have 1-2 breakpoints",
      validate := validate_acentric_breakpoints },
    { id := "ABN_TAS_BP", category := "abnormality",
      description := "Telomeric association breakpoint count must match chromosome count",
      validate := validate_telomeric_association_breakpoints },
    { id := "ABN_FIS_BP", category := "abnormality",
      description := "Fission must have exactly 1 breakpoint",
      validate := validate_fission_breakpoints },
    { id := "ABN_NEO_BP", category := "abnormality",
      description := "Neocentromere must have exactly 1 breakpoint",
      validate := validate_neocentromere_breakpoints },
    { id := "ABN_INC_BP", category := "abnormality",
      description := "Incomplete karyotype marker must have no breakpoints",
      validate := validate_incomplete_breakpoints } ]

/-- engine.py RuleEngine.validate: run the AST-level rules in catalog
order, then every abnormality rule on every abnormality (abnormality
outer, rule inner), accumulating messages by list extension. -/
def engineValidate (astRules : List ASTRule) (abnRules : List AbnRule)
    (ast : KaryotypeAST) : ValidationResult :=
  let e1 := astRules.foldl (fun acc r => acc ++ r.validate ast ast) []
  let e2 := ast.abnormalities.foldl
    (fun acc a => abnRules.foldl (fun acc2 r => acc2 ++ r.validate ast a) acc) e1
  { valid := e2.length == 0, errors := e2, parsed := some ast }

/-- main.py validate_karyotype: parse, returning a single-error result on
ParseError, otherwise run the engine configured with the two catalogs. -/
def validate_karyotype (karyotype : String) : ValidationResult :=
  match parse karyotype with
  | .error e => { valid := false, errors := [e], parsed := none }
  | .ok ast => engineValidate ALL_CHROMOSOME_RULES ALL_ABNORMALITY_RULES ast

/-- main.py is_valid_karyotype. -/
def is_valid_karyotype (karyotype : String) : Bool :=
  (validate_karyotype karyotype).valid

/-! ## Unicode digit semantics of the chromosome-count field

Python str.isdigit accepts digit characters beyond the decimal digits,
for example the superscript two U+00B2, while int() accepts only decimal
digits; parse_chromosome_count guards int() with isdigit, so the two
notions are contrasted here for that character. -/

/-- Python str.isdigit on one character, extended past ASCII with the
superscript two, which Python classifies as a digit. -/
def pyIsdigitCharFull (c : Char) : Bool :=
  c.isDigit || c = '²'

/-- Python str.isdigit with the full digit character class. -/
def pyIsdigitFull (cs : List Char) : Bool :=
  !cs.isEmpty && cs.all pyIsdigitCharFull

/-- The success condition of Python int() on a bare digit string: every
character must be a decimal digit. -/
def pyIntAccepts (cs : List Char) : Bool :=
  !cs.isEmpty && cs.all Char.isDigit

/-! ## Spec-shaped error aggregation

The specification describes the engine output as the concatenation of all
AST-level rule messages in catalog order followed by the abnormality-level
messages in (abnormality-order, rule-order); these two definitions follow
that wording, to be compared with the accumulator loop of engineValidate. -/

/-- All AST-level rule messages in catalog order, as the spec words it. -/
def specASTErrors (ast : KaryotypeAST) : List String :=
  (ALL_CHROMOSOME_RULES.map (fun r => r.validate ast ast)).flatten

/-- All abnormality-level rule messages in (abnormality-order, rule-order),
as the spec words it. -/
def specAbnormalityErrors (ast : KaryotypeAST) : List String :=
  (ast.abnormalities.map
    (fun a => (ALL_ABNORMALITY_RULES.map (fun r => r.validate ast a)).flatten)).flatten

/-! ## Concrete values used to instantiate the theorems -/

/-- A plain 46,XX AST, used as an ambient AST argument for abnormality
rules (which ignore it). -/
def astPlain : KaryotypeAST :=
  { chromosome_count := .num 46, sex_chromosomes := "XX", abnormalities := [],
    cell_lines := none, modifiers := none }

/-- The AST of 46,X: chromosome count 46 with a single sex chromosome. -/
def ast46X : KaryotypeAST :=
  { chromosome_count := .num 46, sex_chromosomes := "X", abnormalities := [],
    cell_lines := none, modifiers := none }

/-- The breakpoint q13. -/
def bpQ13 : Breakpoint :=
  { arm := "q", region := some 1, band := some 3, subband := none, uncertain := false }

/-- The breakpoint q33. -/
def bpQ33 : Breakpoint :=
  { arm := "q", region := some 3, band := some 3, subband := none, uncertain := false }

/-- The breakpoint q34. -/
def bpQ34 : Breakpoint :=
  { arm := "q", region := some 3, band := some 4, subband := none, uncertain := false }

/-- The breakpoint q11.2. -/
def bpQ112 : Breakpoint :=
  { arm := "q", region := some 1, band := some 1, subband := some "2", uncertain := false }

/-- The parsed interstitial deletion del(5)(q13q33). -/
def abnDel5 : Abnormality :=
  { type := "del", chromosome := "5", breakpoints := [bpQ13, bpQ33],
    inheritance := none, uncertain := false, copy_count := none,
    raw := "del(5)(q13q33)" }

/-- The parsed deletion del(99)(q13), whose chromosome id is outside 1-22. -/
def abnDel99 : Abnormality :=
  { type := "del", chromosome := "99", breakpoints := [bpQ13],
    inheritance := none, uncertain := false, copy_count := none,
    raw := "del(99)(q13)" }

/-- The numerical gain +7. -/
def abnPlus7 : Abnormality :=
  { type := "+", chromosome := "7", breakpoints := [],
    inheritance := none, uncertain := false, copy_count := none, raw := "+7" }

/-- The parsed translocation t(9;22)(q34;q11.2). -/
def abnT922 : Abnormality :=
  { type := "t", chromosome := "9;22", breakpoints := [bpQ34, bpQ112],
    inheritance := none, uncertain := false, copy_count := none,
    raw := "t(9;22)(q34;q11.2)" }

/-- The AST parsed from 46,XX. -/
def ast46XX : KaryotypeAST :=
  { chromosome_count := .num 46, sex_chromosomes := "XX", abnormalities := [],
    cell_lines := none, modifiers := none }

/-- The marker abnormality parsed from the +mar token. -/
def abnMar : Abnormality :=
  { type := "+mar", chromosome := "mar", breakpoints := [],
    inheritance := none, uncertain := false, copy_count := none, raw := "+mar" }

/-- The AST parsed from 47,XX,+mar. -/
def ast47Mar : KaryotypeAST :=
  { chromosome_count := .num 47, sex_chromosomes := "XX", abnormalities := [abnMar],
    cell_lines := none, modifiers := none }

/-! ## Claim C1: the coherence rule -/

/-- C1 counterexample: with no abnormalities, integer count 47 and sex
chromosomes XX, the coherence rule emits nothing although 47 is not equal
to 44 plus the sex-chromosome length, so the unrestricted iff of the claim
fails: the check does not apply at every numeric count. -/
theorem c1_counterexample :
    validate_sex_chromosomes_coherence
      { chromosome_count := .num 47, sex_chromosomes := "XX",
        abnormalities := [], cell_lines := none, modifiers := none }
      { chromosome_count := .num 47, sex_chromosomes := "XX",
        abnormalities := [], cell_lines := none, modifiers := none } = [] ∧
    (47 : Int) ≠ 44 + (("XX" : String).length : Int) :=
  ⟨rfl, by decide⟩

/-- C1 (amended): for an AST with an empty abnormality list, an integer
chromosome count and sex chromosomes other than U, the coherence rule
emits a violation iff the count is 46 with sex-chromosome length other
than 2, or 45 with length other than 1; at every other numeric count the
rule never fires. -/
theorem c1_coherence_only_45_46 (ast : KaryotypeAST) (n : Int)
    (hn : ast.chromosome_count = ChromCount.num n)
    (habn : ast.abnormalities = [])
    (hu : ast.sex_chromosomes ≠ "U") :
    validate_sex_chromosomes_coherence ast ast ≠ [] ↔
      ((n = 46 ∧ ast.sex_chromosomes.length ≠ 2) ∨
       (n = 45 ∧ ast.sex_chromosomes.length ≠ 1)) := by
  unfold validate_sex_chromosomes_coherence
  rw [hn]
  simp only [hu, if_false, habn, List.isEmpty_nil, if_true]
  split_ifs with h1 h2
  · simp only [ne_eq, List.cons_ne_nil, not_false_eq_true, true_iff]
    exact Or.inl h1
  · simp only [ne_eq, List.cons_ne_nil, not_false_eq_true, true_iff]
    exact Or.inr h2
  · simp only [ne_eq, not_true_eq_false, false_iff]
    tauto

/-- C1 witness: at count 46 with a single sex chromosome the amended
theorem yields a violation. -/
theorem c1_witness : validate_sex_chromosomes_coherence ast46X ast46X ≠ [] :=
  (c1_coherence_only_45_46 ast46X 46 rfl rfl (by decide)).mpr
    (Or.inl ⟨rfl, by decide⟩)

/-! ## Claim C3: interior mismatch after a recognized opening -/

/-- C3 counterexample: the ring token r(1)(p36), whose interior is a
single breakpoint group rather than two, does not raise a ParseError: it
parses to a ring Abnormality with an empty breakpoint list, and the whole
karyotype 46,XX,r(1)(p36) parses. -/
theorem c3_counterexample :
    parse_ring "r(1)(p36)" =
      .ok { type := "r", chromosome := "1", breakpoints := [],
            inheritance := none, uncertain := false, copy_count := none,
            raw := "r(1)(p36)" } ∧
    (parse "46,XX,r(1)(p36)").isOk = true :=
  ⟨rfl, rfl⟩

/-- C3 (amended): when an inversion opening matched but the interior is
not two consecutive breakpoint groups, the parser raises a fatal
ParseError, as the claim says; the ring form is the exception: a ring
whose breakpoint form matched but whose interior is not two consecutive
groups parses to an Abnormality with an empty breakpoint list. -/
theorem c3_interior_shape (s t : String) (ci ii cr ir : List Char)
    (hinv : matchChrBp ("inv(".toList) s.toList = some (ci, ii))
    (hnd : matchDouble ii = none)
    (hrs : matchRingSimple t.toList = none)
    (hrb : matchChrBp ("r(".toList) t.toList = some (cr, ir))
    (hnd2 : matchDouble ir = none) :
    parse_inversion s =
      .error ("Inversion requires two breakpoints: \x27" ++ s ++ "\x27") ∧
    parse_ring t =
      .ok { type := "r", chromosome := strOf cr, breakpoints := [],
            inheritance := none, uncertain := false, copy_count := none,
            raw := t } := by
  unfold parse_inversion parse_ring
  simp only [hinv, hnd, hrs, hrb, hnd2]
  exact ⟨trivial, trivial⟩

/-- C3 witness: the amended theorem applied to inv(3)(q21) and r(1)(p36). -/
theorem c3_witness :
    parse_inversion "inv(3)(q21)" =
      .error ("Inversion requires two breakpoints: \x27" ++ "inv(3)(q21)" ++ "\x27") ∧
    parse_ring "r(1)(p36)" =
      .ok { type := "r", chromosome := strOf ['1'], breakpoints := [],
            inheritance := none, uncertain := false, copy_count := none,
            raw := "r(1)(p36)" } :=
  c3_interior_shape "inv(3)(q21)" "r(1)(p36)" ['3'] ("q21".toList) ['1'] ("p36".toList)
    rfl rfl rfl rfl rfl

/-! ## Claim C5: deletion and duplication arm agreement -/

/-- C5: for an abnormality of type del or dup carrying exactly two
breakpoints, the two arms are equal iff the deletion rule and the
duplication rule both report no error. -/
theorem c5_del_dup_same_arm (ast : KaryotypeAST) (abn : Abnormality) (b1 b2 : Breakpoint)
    (ht : abn.type = "del" ∨ abn.type = "dup")
    (hb : abn.breakpoints = [b1, b2]) :
    b1.arm = b2.arm ↔
      (validate_deletion_breakpoints ast abn = [] ∧
       validate_duplication_breakpoints ast abn = []) := by
  unfold validate_deletion_breakpoints validate_duplication_breakpoints
  rcases ht with h | h <;> rw [h] <;>
    by_cases harm : b1.arm = b2.arm <;>
      simp [hb, harm]

/-- C5 witness: the parsed deletion del(5)(q13q33) has both breakpoints on
the q arm and both rules accept it. -/
theorem c5_witness :
    validate_deletion_breakpoints astPlain abnDel5 = [] ∧
    validate_duplication_breakpoints astPlain abnDel5 = [] :=
  (c5_del_dup_same_arm astPlain abnDel5 bpQ13 bpQ33 (Or.inl rfl) rfl).mp rfl

/-! ## Claim C9: totality of validate_karyotype -/

/-- C9: at the input with the superscript-two character the code path of
parse_chromosome_count is reached (the stripped input splits on the comma
into the fields with the superscript two first, and there is no mosaic
separator), the Python isdigit guard accepts the field because the
superscript two is a digit character, yet the int() conversion precondition
rejects it since it is not a decimal digit: the guarded conversion raises
an uncaught ValueError there, escaping validate_karyotype. -/
theorem c9_isdigit_int_mismatch :
    pyIsdigitFull (("²" : String).toList) = true ∧
    pyIntAccepts (("²" : String).toList) = false ∧
    pyStrip "²,X" = "²,X" ∧
    splitOn ',' (("²,X" : String).toList) = [("²" : String).toList, ("X" : String).toList] ∧
    (("²,X" : String).toList.contains '/') = false := by
  refine ⟨rfl, rfl, rfl, ?_, rfl⟩
  rfl

/-! ## Claim C2: translocation breakpoint counts -/

/-- The breakpoint list built by parse_translocation has one entry per
semicolon-separated segment. -/
theorem parseBpList_length (l : List (List Char)) (bs : List Breakpoint)
    (h : parseBpList l = .ok bs) : bs.length = l.length := by
  induction l generalizing bs with
  | nil =>
    unfold parseBpList at h
    cases h
    rfl
  | cons x xs ih =>
    unfold parseBpList at h
    split at h
    · exact absurd h (by simp)
    · split at h
      · exact absurd h (by simp)
      · next bs2 heq =>
        cases h
        simp [ih bs2 heq]

/-- C2 counterexample: the translocation token t(9;22)(q34) is accepted by
the parser (also inside a full karyotype) with a single Breakpoint, while
its chromosome field lists two semicolon-separated identifiers, so parsing
alone does not guarantee the equality. -/
theorem c2_counterexample :
    (parse_translocation "t(9;22)(q34)").map
        (fun a => (a.chromosome, a.breakpoints.length)) = .ok ("9;22", 1) ∧
    (splitOn ';' (("9;22" : String).toList)).length = 2 ∧
    (parse "46,XX,t(9;22)(q34)").isOk = true :=
  ⟨rfl, rfl, rfl⟩

/-- C2 (amended): for every translocation token the parser accepts, the
Breakpoint count equals the number of semicolon-separated segments of the
second parenthesized group; agreement with the chromosome-identifier count
is not guaranteed by parsing but is exactly what the translocation rule
checks: it reports no violation iff the two counts coincide. -/
theorem c2_translocation_counts (s : String) (g1 g2 : List Char)
    (abn : Abnormality) (ast : KaryotypeAST)
    (hm : matchTwoGroups ("t(".toList) s.toList = some (g1, g2))
    (hp : parse_translocation s = .ok abn) :
    abn.chromosome = strOf g1 ∧
    abn.breakpoints.length = (splitOn ';' g2).length ∧
    (validate_translocation_breakpoint_count ast abn = [] ↔
      (splitOn ';' abn.chromosome.toList).length = abn.breakpoints.length) := by
  unfold parse_translocation at hp
  rw [hm] at hp
  simp only [] at hp
  cases hb : parseBpList (splitOn ';' g2) with
  | error e =>
    rw [hb] at hp
    exact absurd hp (by simp)
  | ok bs =>
    rw [hb] at hp
    cases hp
    refine ⟨rfl, parseBpList_length _ _ hb, ?_⟩
    by_cases hc : (splitOn ';' (strOf g1).toList).length = bs.length
    · simp [validate_translocation_breakpoint_count, hc]
    · simp [validate_translocation_breakpoint_count, hc]

/-- C2 witness: the amended theorem applied to t(9;22)(q34;q11.2). -/
theorem c2_witness :
    abnT922.chromosome = strOf (("9;22" : String).toList) ∧
    abnT922.breakpoints.length = (splitOn ';' (("q34;q11.2" : String).toList)).length ∧
    (validate_translocation_breakpoint_count astPlain abnT922 = [] ↔
      (splitOn ';' abnT922.chromosome.toList).length = abnT922.breakpoints.length) :=
  c2_translocation_counts "t(9;22)(q34;q11.2)" (("9;22" : String).toList)
    (("q34;q11.2" : String).toList) abnT922 astPlain rfl rfl

/-! ## Claim C7: chromosome identifiers admitted by the patterns -/

/-- C7 counterexample: the token del(99)(q13) parses, inside a full
karyotype, to a deletion whose chromosome identifier 99 lies outside
1-22, X, Y, so the matching pattern does not reject such identifiers. -/
theorem c7_counterexample :
    (parse "46,XX,del(99)(q13)").map
        (fun ast => ast.abnormalities.map (fun a => (a.type, a.chromosome))) =
      .ok [("del", "99")] ∧
    VALID_CHROMOSOMES.contains "99" = false :=
  ⟨rfl, rfl⟩

/-- The chromosome group of the shared chromosome-plus-breakpoint shape
always satisfies the pattern character class. -/
theorem matchChrBp_chrId (pre cs g1 g2 : List Char)
    (h : matchChrBp pre cs = some (g1, g2)) : isChrIdChars g1 = true := by
  unfold matchChrBp at h
  split at h
  · split at h
    · split at h
      · split at h
        · next heq =>
          cases h
          assumption
        · exact absurd h (by simp)
      · exact absurd h (by simp)
    · exact absurd h (by simp)
  · exact absurd h (by simp)

/-- Every successfully parsed deletion carries a chromosome field that the
pattern character class accepted. -/
theorem parse_deletion_chromosome (s : String) (abn : Abnormality)
    (h : parse_deletion s = .ok abn) :
    isChrIdChars abn.chromosome.toList = true := by
  unfold parse_deletion at h
  split at h
  · exact absurd h (by simp)
  · next chr bpStr heq =>
    have hid := matchChrBp_chrId _ _ _ _ heq
    split at h
    · split at h
      · exact absurd h (by simp)
      · split at h
        · exact absurd h (by simp)
        · cases h
          exact hid
    · split at h
      · exact absurd h (by simp)
      · cases h
        exact hid

/-- C7 (amended): the matching pattern constrains an embedded chromosome
identifier only to the character class of one or two digits or X or Y
(del shown as representative: every accepted deletion token has a
class-conforming chromosome field, and 99 conforms); the restriction to
1-22, X, Y exists only as the numerical-abnormality rule, which accepts a
gain or loss iff its chromosome is in that set. -/
theorem c7_chromosome_pattern (s : String) (abn abn2 : Abnormality) (ast : KaryotypeAST) :
    (parse_deletion s = .ok abn → isChrIdChars abn.chromosome.toList = true) ∧
    (isChrIdChars (("99" : String).toList) = true) ∧
    (abn2.type = "+" ∨ abn2.type = "-" →
      (validate_numerical_chromosome ast abn2 = [] ↔
        VALID_CHROMOSOMES.contains abn2.chromosome = true)) := by
  refine ⟨parse_deletion_chromosome s abn, rfl, ?_⟩
  intro ht
  unfold validate_numerical_chromosome
  rw [if_pos ht]
  split_ifs with hc
  · simpa using hc
  · simp only [List.cons_ne_nil, false_iff]
    intro h
    exact hc h

/-- C7 witness: the amended theorem applied to del(99)(q13) and the
numerical gain +7. -/
theorem c7_witness :
    isChrIdChars abnDel99.chromosome.toList = true ∧
    (validate_numerical_chromosome astPlain abnPlus7 = [] ↔
      VALID_CHROMOSOMES.contains abnPlus7.chromosome = true) :=
  ⟨(c7_chromosome_pattern "del(99)(q13)" abnDel99 abnPlus7 astPlain).1 rfl,
   (c7_chromosome_pattern "del(99)(q13)" abnDel99 abnPlus7 astPlain).2.2 (Or.inl rfl)⟩

/-! ## Claim C8: region and band splitting -/

/-- takeWhile passes over a block whose elements all satisfy the
predicate. -/
theorem takeWhile_append_all (p : Char → Bool) (l r : List Char)
    (h : l.all p = true) :
    (l ++ r).takeWhile p = l ++ r.takeWhile p := by
  induction l with
  | nil => simp
  | cons c cs ih =>
    simp only [List.all_cons, Bool.and_eq_true] at h
    simp [List.takeWhile_cons, h.1, ih h.2]

/-- dropWhile removes a block whose elements all satisfy the predicate. -/
theorem dropWhile_append_all (p : Char → Bool) (l r : List Char)
    (h : l.all p = true) :
    (l ++ r).dropWhile p = r.dropWhile p := by
  induction l with
  | nil => simp
  | cons c cs ih =>
    simp only [List.all_cons, Bool.and_eq_true] at h
    simp [List.dropWhile_cons, h.1, ih h.2]

/-- C8: on a breakpoint string of shape arm, digit run, optional dot and
digit run, parse_breakpoint succeeds; the region is the value of the first
digit, the band is the value of the remaining digits when the run has at
least two characters and 0 otherwise, and the subband is kept verbatim. -/
theorem c8_region_band_subband (arm : Char) (ds : List Char) (sub : Option (List Char))
    (ha : arm = 'p' ∨ arm = 'q')
    (hd : ds ≠ [])
    (hdd : ds.all Char.isDigit = true)
    (hs : ∀ l, sub = some l → l ≠ [] ∧ l.all Char.isDigit = true) :
    parse_breakpoint
        (strOf (arm :: ds ++ (match sub with | none => [] | some l => '.' :: l))) =
      .ok { arm := strOf [arm],
            region := some (digitsNat (ds.take 1) : Int),
            band := some (if 2 ≤ ds.length then (digitsNat (ds.drop 1) : Int) else 0),
            subband := sub.map strOf,
            uncertain := false } := by
  have harm : (arm = 'p' || arm = 'q') = true := by
    rcases ha with h | h <;> simp [h]
  have hne : ds.isEmpty = false := by
    cases ds with
    | nil => exact absurd rfl hd
    | cons c cs => rfl
  have hreg : (if 2 ≤ ds.length then (digitsNat (ds.take 1) : Int) else (digitsNat ds : Int)) =
      (digitsNat (ds.take 1) : Int) := by
    split_ifs with hlen
    · rfl
    · have h1 : ds.length = 1 := by
        cases ds with
        | nil => exact absurd rfl hd
        | cons c cs =>
          cases cs with
          | nil => rfl
          | cons d es =>
            exact absurd (by simp only [List.length_cons] ; omega) hlen
      obtain ⟨c, rfl⟩ := List.length_eq_one.mp h1
      rfl
  cases sub with
  | none =>
    unfold parse_breakpoint matchBreakpoint
    have hsplit : (strOf (arm :: ds ++ [])).toList = arm :: (ds ++ []) := rfl
    rw [hsplit]
    simp only [harm, if_true, List.append_nil]
    rw [show ds.takeWhile Char.isDigit = ds from by
        have := takeWhile_append_all Char.isDigit ds [] hdd
        simpa using this,
      show ds.dropWhile Char.isDigit = ([] : List Char) from by
        have := dropWhile_append_all Char.isDigit ds [] hdd
        simpa using this]
    simp only [hne, Bool.false_eq_true, if_false, Option.map_none]
    rw [hreg]
  | some l =>
    obtain ⟨hl, hld⟩ := hs l rfl
    have hlne : l.isEmpty = false := by
      cases l with
      | nil => exact absurd rfl hl
      | cons c cs => rfl
    unfold parse_breakpoint matchBreakpoint
    have hsplit : (strOf (arm :: ds ++ '.' :: l)).toList = arm :: (ds ++ '.' :: l) := rfl
    rw [hsplit]
    simp only [harm, if_true]
    rw [takeWhile_append_all Char.isDigit ds ('.' :: l) hdd,
      dropWhile_append_all Char.isDigit ds ('.' :: l) hdd]
    simp only [List.takeWhile_cons, List.dropWhile_cons,
      show Char.isDigit '.' = false from rfl, Bool.false_eq_true, if_false,
      List.append_nil, hne, hlne, Bool.not_false, hld, Bool.and_self,
      Option.map_some, if_true]
    rw [hreg]

/-- C8 witness: q133 gives region 1 and band 33; p11.2 gives region 1,
band 1, subband 2 kept verbatim. -/
theorem c8_witness :
    parse_breakpoint "q133" =
      .ok { arm := "q", region := some 1, band := some 33, subband := none,
            uncertain := false } ∧
    parse_breakpoint "p11.2" =
      .ok { arm := "p", region := some 1, band := some 1, subband := some "2",
            uncertain := false } :=
  ⟨c8_region_band_subband 'q' ['1', '3', '3'] none (Or.inr rfl) (by decide)
      (by decide) (fun l hl => by cases hl),
   c8_region_band_subband 'p' ['1', '1'] (some ['2']) (Or.inl rfl) (by decide)
      (by decide) (fun l hl => by cases hl; exact ⟨by decide, by decide⟩)⟩

/-! ## Claim C6: result structure of validate_karyotype -/

/-- The accumulator loop of the engine equals the concatenation of the
per-element message lists. -/
theorem foldl_append_emit {α : Type} (f : α → List String) (l : List α)
    (init : List String) :
    l.foldl (fun acc x => acc ++ f x) init = init ++ (l.map f).flatten := by
  induction l generalizing init with
  | nil => simp
  | cons x xs ih => simp [ih, List.append_assoc]

/-- The engine error list is the AST-level messages in catalog order
followed by the abnormality-level messages in (abnormality, rule) order. -/
theorem engineValidate_errors (astRules : List ASTRule) (abnRules : List AbnRule)
    (ast : KaryotypeAST) :
    (engineValidate astRules abnRules ast).errors =
      (astRules.map (fun r => r.validate ast ast)).flatten ++
      (ast.abnormalities.map
        (fun a => (abnRules.map (fun r => r.validate ast a)).flatten)).flatten := by
  unfold engineValidate
  have h2 : ∀ (acc : List String) (a : Abnormality),
      abnRules.foldl (fun acc2 r => acc2 ++ r.validate ast a) acc =
        acc ++ (abnRules.map (fun r => r.validate ast a)).flatten :=
    fun acc a => foldl_append_emit _ _ _
  simp only [foldl_append_emit, List.nil_append, h2]

/-- C6: on a parse error, validate returns parsed null, valid false and
exactly the one error; on parse success it returns the full AST, the
errors as AST-level messages in catalog order followed by
abnormality-level messages in (abnormality-order, rule-order), and valid
iff that list is empty. -/
theorem c6_error_classes (s : String) :
    (∀ e, parse s = .error e →
      validate_karyotype s = { valid := false, errors := [e], parsed := none }) ∧
    (∀ ast, parse s = .ok ast →
      (validate_karyotype s).parsed = some ast ∧
      (validate_karyotype s).errors = specASTErrors ast ++ specAbnormalityErrors ast ∧
      ((validate_karyotype s).valid = true ↔ (validate_karyotype s).errors = [])) := by
  constructor
  · intro e he
    unfold validate_karyotype
    rw [he]
  · intro ast ha
    unfold validate_karyotype
    rw [ha]
    refine ⟨rfl, engineValidate_errors _ _ _, ?_⟩
    unfold engineValidate
    simp [List.length_eq_zero]

/-- C6 witness: the theorem applied to the parse failure 46XX and to the
parse success 46,XX. -/
theorem c6_witness :
    validate_karyotype "46XX" =
      { valid := false,
        errors := ["Missing comma separator between chromosome count and sex chromosomes"],
        parsed := none } ∧
    (validate_karyotype "46,XX").errors =
      specASTErrors ast46XX ++ specAbnormalityErrors ast46XX :=
  ⟨(c6_error_classes "46XX").1 _ rfl,
   ((c6_error_classes "46,XX").2 ast46XX rfl).2.1⟩

/-! ## Claim C4: inputs without a comma -/

/-- Dropping a prefix with dropWhile cannot introduce characters. -/
theorem mem_of_mem_dropWhile (p : Char → Bool) (l : List Char) (x : Char)
    (h : x ∈ l.dropWhile p) : x ∈ l := by
  induction l with
  | nil => simp at h
  | cons c cs ih =>
    rw [List.dropWhile_cons] at h
    split at h
    · exact List.mem_cons_of_mem _ (ih h)
    · exact h

/-- Stripping whitespace cannot introduce characters. -/
theorem mem_pyStripL (cs : List Char) (x : Char) (h : x ∈ pyStripL cs) :
    x ∈ cs := by
  unfold pyStripL at h
  rw [List.mem_reverse] at h
  have h1 := mem_of_mem_dropWhile _ _ _ h
  rw [List.mem_reverse] at h1
  exact mem_of_mem_dropWhile _ _ _ h1

/-- Splitting cannot introduce characters: every character of every group
comes from the split list. -/
theorem mem_splitOnAux (sep : Char) (cs : List Char) :
    (∀ y ∈ (splitOnAux sep cs).1, y ∈ cs) ∧
    (∀ g ∈ (splitOnAux sep cs).2, ∀ y ∈ g, y ∈ cs) := by
  induction cs with
  | nil =>
    refine ⟨fun y hy => ?_, fun g hg y hy => ?_⟩ <;> simp_all [splitOnAux]
  | cons c cs ih =>
    unfold splitOnAux
    by_cases hc : c = sep
    · rw [if_pos hc]
      refine ⟨fun y hy => ?_, fun g hg y hy => ?_⟩
      · cases hy
      · rcases List.mem_cons.mp hg with rfl | hg2
        · exact List.mem_cons_of_mem _ (ih.1 y hy)
        · exact List.mem_cons_of_mem _ (ih.2 g hg2 y hy)
    · rw [if_neg hc]
      refine ⟨fun y hy => ?_, fun g hg y hy => ?_⟩
      · rcases List.mem_cons.mp hy with rfl | hy2
        · exact List.mem_cons_self _ _
        · exact List.mem_cons_of_mem _ (ih.1 y hy2)
      · exact List.mem_cons_of_mem _ (ih.2 g hg y hy)

/-- Splitting on an absent separator returns the whole list as the single
group. -/
theorem splitOnAux_no_sep (sep : Char) (cs : List Char) (h : ¬ sep ∈ cs) :
    splitOnAux sep cs = (cs, []) := by
  induction cs with
  | nil => rfl
  | cons c cs ih =>
    have hne : ¬ (c = sep) := by
      intro hceq
      subst hceq
      exact h (List.mem_cons_self _ _)
    unfold splitOnAux
    rw [if_neg hne, ih (fun hmem => h (List.mem_cons_of_mem _ hmem))]

/-- The body recognized before a bracketed cell count consists of
characters of the accumulator or of the scanned list. -/
theorem ccGo_body_mem (x : Char) :
    ∀ (cs acc body ds : List Char), ccGo acc cs = some (body, ds) → x ∈ body →
      x ∈ acc ∨ x ∈ cs := by
  intro cs
  induction cs with
  | nil =>
    intro acc body ds h _
    simp [ccGo] at h
  | cons c rest ih =>
    intro acc body ds h hx
    unfold ccGo at h
    split at h
    · exact absurd h (by simp)
    · split at h
      · cases h
        rcases List.mem_append.mp hx with h1 | h2
        · exact Or.inl h1
        · simp only [List.mem_singleton] at h2
          subst h2
          exact Or.inr (List.mem_cons_self _ _)
      · rcases ih (acc ++ [c]) body ds h hx with h1 | h2
        · rcases List.mem_append.mp h1 with ha | hb
          · exact Or.inl ha
          · simp only [List.mem_singleton] at hb
            subst hb
            exact Or.inr (List.mem_cons_self _ _)
        · exact Or.inr (List.mem_cons_of_mem _ h2)

/-- The comma-splitting core fails with the missing-comma message on any
field list without a comma. -/
theorem parseSingleCore_no_comma (kary : String) (count : Int)
    (h : ¬ ',' ∈ kary.toList) :
    parseSingleCore kary count =
      .error "Missing comma separator between chromosome count and sex chromosomes" := by
  unfold parseSingleCore
  rw [show splitOn ',' kary.toList = [kary.toList] from by
    unfold splitOn
    rw [splitOnAux_no_sep ',' kary.toList h]]

/-- parse_single fails with the missing-comma message on any input without
a comma, with or without cell-count extraction. -/
theorem parse_single_no_comma (kary : String) (b : Bool)
    (h : ¬ ',' ∈ kary.toList) :
    parse_single kary b =
      .error "Missing comma separator between chromosome count and sex chromosomes" := by
  unfold parse_single
  cases b with
  | false => exact parseSingleCore_no_comma kary 0 h
  | true =>
    cases hm : matchCellCount kary.toList with
    | none =>
      simp only []
      exact parseSingleCore_no_comma kary 0 h
    | some pr =>
      obtain ⟨body, ds⟩ := pr
      simp only []
      apply parseSingleCore_no_comma
      intro hmem
      rcases ccGo_body_mem ',' kary.toList [] body ds hm hmem with h1 | h2
      · cases h1
      · exact h h2

/-- C4 counterexample: on the empty input the single error message is the
empty-karyotype message, which mentions neither a separator nor a comma,
so the claim fails on empty (and all-whitespace) strings. -/
theorem c4_counterexample :
    validate_karyotype "" =
      { valid := false, errors := ["Karyotype string is empty"], parsed := none } ∧
    containsSeg (("separator" : String).toList)
      (("Karyotype string is empty" : String).toList) = false ∧
    containsSeg (("comma" : String).toList)
      (("Karyotype string is empty" : String).toList) = false :=
  ⟨rfl, rfl, rfl⟩

/-- C4 (amended): every input whose whitespace-strip is nonempty and that
contains no comma yields valid false with exactly one error, the
missing-comma message; empty and all-whitespace inputs yield valid false
with exactly one error, the empty-karyotype message. -/
theorem c4_no_comma (s : String) :
    (pyStrip s ≠ "" → ¬ ',' ∈ s.toList →
      validate_karyotype s =
        { valid := false,
          errors := ["Missing comma separator between chromosome count and sex chromosomes"],
          parsed := none }) ∧
    (pyStrip s = "" →
      validate_karyotype s =
        { valid := false, errors := ["Karyotype string is empty"], parsed := none }) := by
  constructor
  · intro h1 h2
    have hk : ¬ (pyStrip s).toList = [] := by
      intro hl
      apply h1
      unfold pyStrip
      unfold pyStrip at hl
      rw [show pyStripL s.toList = [] from hl]
      rfl
    have hnc : ¬ ',' ∈ (pyStrip s).toList := by
      intro hmem
      exact h2 (mem_pyStripL s.toList ',' hmem)
    unfold validate_karyotype parse
    rw [if_neg hk]
    by_cases hsl : (pyStrip s).toList.contains '/'
    · rw [if_pos hsl]
      unfold parse_mosaic
      rw [show splitOn '/' (pyStrip s).toList =
            (splitOnAux '/' (pyStrip s).toList).1 :: (splitOnAux '/' (pyStrip s).toList).2
          from rfl]
      unfold parseCellLines
      rw [parse_single_no_comma (strOf (pyStripL (splitOnAux '/' (pyStrip s).toList).1)) true ?hnc2]
      case hnc2 =>
        intro hmem
        have hmem2 : ',' ∈ (splitOnAux '/' (pyStrip s).toList).1 :=
          mem_pyStripL _ ',' hmem
        exact hnc ((mem_splitOnAux '/' (pyStrip s).toList).1 ',' hmem2)
    · rw [if_neg hsl]
      rw [parse_single_no_comma (pyStrip s) false hnc]
  · intro hempty
    unfold validate_karyotype parse
    rw [hempty]
    rfl

/-- C4 witness: the amended theorem applied to 46XX and to a blank input. -/
theorem c4_witness :
    validate_karyotype "46XX" =
      { valid := false,
        errors := ["Missing comma separator between chromosome count and sex chromosomes"],
        parsed := none } ∧
    validate_karyotype " " =
      { valid := false, errors := ["Karyotype string is empty"], parsed := none } :=
  ⟨(c4_no_comma "46XX").1 (by decide) (by decide),
   (c4_no_comma " ").2 (by decide)⟩

/-! ## Claim C10: the mar-scoped rule never fires on parser output -/

/-- Every successful deletion parse is tagged del. -/
theorem parse_deletion_type (s : String) (a : Abnormality)
    (h : parse_deletion s = .ok a) : a.type = "del" := by
  unfold parse_deletion at h
  repeat' split at h
  all_goals first
    | (cases h; rfl)
    | exact absurd h (by simp)

/-- Every successful duplication parse is tagged dup. -/
theorem parse_duplication_type (s : String) (a : Abnormality)
    (h : parse_duplication s = .ok a) : a.type = "dup" := by
  unfold parse_duplication at h
  repeat' split at h
  all_goals first
    | (cases h; rfl)
    | exact absurd h (by simp)

/-- Every successful inversion parse is tagged inv. -/
theorem parse_inversion_type (s : String) (a : Abnormality)
    (h : parse_inversion s = .ok a) : a.type = "inv" := by
  unfold parse_inversion at h
  repeat' split at h
  all_goals first
    | (cases h; rfl)
    | exact absurd h (by simp)

/-- Every successful translocation parse is tagged t. -/
theorem parse_translocation_type (s : String) (a : Abnormality)
    (h : parse_translocation s = .ok a) : a.type = "t" := by
  unfold parse_translocation at h
  repeat' split at h
  all_goals first
    | (cases h; rfl)
    | exact absurd h (by simp)

/-- Every successful isochromosome parse is tagged i. -/
theorem parse_isochromosome_type (s : String) (a : Abnormality)
    (h : parse_isochromosome s = .ok a) : a.type = "i" := by
  unfold parse_isochromosome at h
  repeat' split at h
  all_goals first
    | (cases h; rfl)
    | exact absurd h (by simp)

/-- Every successful ring parse is tagged r. -/
theorem parse_ring_type (s : String) (a : Abnormality)
    (h : parse_ring s = .ok a) : a.type = "r" := by
  unfold parse_ring at h
  repeat' split at h
  all_goals first
    | (cases h; rfl)
    | exact absurd h (by simp)

/-- Every successful insertion parse is tagged ins. -/
theorem parse_insertion_type (s : String) (a : Abnormality)
    (h : parse_insertion s = .ok a) : a.type = "ins" := by
  unfold parse_insertion at h
  repeat' split at h
  all_goals first
    | (cases h; rfl)
    | exact absurd h (by simp)

/-- Every successful add parse is tagged add. -/
theorem parse_add_type (s : String) (a : Abnormality)
    (h : parse_add s = .ok a) : a.type = "add" := by
  unfold parse_add at h
  repeat' split at h
  all_goals first
    | (cases h; rfl)
    | exact absurd h (by simp)

/-- The sign recognized by the numerical pattern is a plus or a minus. -/
theorem matchNumerical_sign (cs : List Char) (sgn : Char) (chrom : List Char)
    (h : matchNumerical cs = some (sgn, chrom)) : sgn = '+' ∨ sgn = '-' := by
  cases cs with
  | nil => simp [matchNumerical] at h
  | cons sign rest =>
    rw [show matchNumerical (sign :: rest) =
          if ((sign = '+' || sign = '-') && isChrIdChars rest) = true then
            some (sign, rest)
          else none from rfl] at h
    by_cases hc : ((sign = '+' || sign = '-') && isChrIdChars rest) = true
    · rw [if_pos hc] at h
      cases h
      simp only [Bool.and_eq_true, Bool.or_eq_true, decide_eq_true_eq] at hc
      exact hc.1
    · rw [if_neg hc] at h
      cases h

/-- The bookkeeping overwrite preserves the structural type tag. -/
theorem withMeta_type (r : Except String Abnormality) (o : String) (u : Bool)
    (i : Option String) (a : Abnormality) (h : withMeta r o u i = .ok a) :
    ∃ b, r = .ok b ∧ a.type = b.type := by
  unfold withMeta at h
  split at h
  · exact absurd h (by simp)
  · next b =>
    cases h
    exact ⟨b, rfl, rfl⟩

/-- No branch of the lower dispatch produces the bare type tag mar:
markers are tagged +mar, and the other branches use der, dmin, hsr or
unknown. -/
theorem dispatchTail_type_ne_mar (cs : List Char) (orig : String) (u : Bool)
    (inh : Option String) (a : Abnormality)
    (h : dispatchTail cs orig u inh = .ok a) : a.type ≠ "mar" := by
  unfold dispatchTail at h
  split at h
  · cases h
    show ("+mar" : String) ≠ "mar"
    decide
  · split at h
    · cases h
      show ("der" : String) ≠ "mar"
      decide
    · split at h
      · cases h
        show ("dmin" : String) ≠ "mar"
        decide
      · split at h
        · split at h
          · exact absurd h (by simp)
          · cases h
            show ("hsr" : String) ≠ "mar"
            decide
        · split at h
          · cases h
            show ("hsr" : String) ≠ "mar"
            decide
          · cases h
            show ("unknown" : String) ≠ "mar"
            decide

/-- No branch of the abnormality dispatch produces the bare type tag mar:
markers are tagged +mar and every other branch uses its own tag. -/
theorem dispatch_type_ne_mar (cs : List Char) (orig : String) (u : Bool)
    (inh : Option String) (a : Abnormality)
    (h : dispatch cs orig u inh = .ok a) : a.type ≠ "mar" := by
  have hw : ∀ (r : Except String Abnormality) (ty : String),
      (∀ b, r = .ok b → b.type = ty) → ty ≠ "mar" →
      withMeta r orig u inh = .ok a → a.type ≠ "mar" := by
    intro r ty hr hty hwm
    obtain ⟨b, hb, hab⟩ := withMeta_type _ _ _ _ _ hwm
    rw [hab, hr b hb]
    exact hty
  unfold dispatch at h
  split at h
  · next sign chrom hnum =>
    cases h
    rcases matchNumerical_sign _ _ _ hnum with rfl | rfl
    · show strOf ['+'] ≠ "mar"
      decide
    · show strOf ['-'] ≠ "mar"
      decide
  · split at h
    · exact hw _ "del" (fun b hb => parse_deletion_type _ _ hb) (by decide) h
    · split at h
      · exact hw _ "add" (fun b hb => parse_add_type _ _ hb) (by decide) h
      · split at h
        · exact hw _ "dup" (fun b hb => parse_duplication_type _ _ hb) (by decide) h
        · split at h
          · exact hw _ "inv" (fun b hb => parse_inversion_type _ _ hb) (by decide) h
          · split at h
            · exact hw _ "t" (fun b hb => parse_translocation_type _ _ hb) (by decide) h
            · split at h
              · exact hw _ "ins" (fun b hb => parse_insertion_type _ _ hb) (by decide) h
              · split at h
                · exact hw _ "i" (fun b hb => parse_isochromosome_type _ _ hb) (by decide) h
                · split at h
                  · exact hw _ "r" (fun b hb => parse_ring_type _ _ hb) (by decide) h
                  · exact dispatchTail_type_ne_mar _ _ _ _ _ h

/-- No abnormality produced by the token parser is tagged mar. -/
theorem parse_one_type_ne_mar (p : String) (a : Abnormality)
    (h : parse_one p = .ok a) : a.type ≠ "mar" := by
  unfold parse_one at h
  repeat' split at h
  all_goals exact dispatch_type_ne_mar _ _ _ _ _ h

/-- No abnormality in the list produced by _parse_abnormalities is tagged
mar. -/
theorem parse_abnormalities_ne_mar (a : Abnormality) :
    ∀ (l : List String) (abns : List Abnormality),
      parse_abnormalities l = .ok abns → a ∈ abns → a.type ≠ "mar" := by
  intro l
  induction l with
  | nil =>
    intro abns h ha
    unfold parse_abnormalities at h
    cases h
    cases ha
  | cons p ps ih =>
    intro abns h ha
    unfold parse_abnormalities at h
    split at h
    · exact ih abns h ha
    · split at h
      · exact absurd h (by simp)
      · next a1 heq1 =>
        split at h
        · exact absurd h (by simp)
        · next rest heq2 =>
          cases h
          rcases List.mem_cons.mp ha with rfl | ha2
          · exact parse_one_type_ne_mar _ _ heq1
          · exact ih rest heq2 ha2

/-- No abnormality of an AST built by the comma-splitting core is tagged
mar. -/
theorem parseSingleCore_ne_mar (a : Abnormality) (kary : String) (count : Int)
    (ast : KaryotypeAST) (c2 : Int)
    (h : parseSingleCore kary count = .ok (ast, c2)) (ha : a ∈ ast.abnormalities) :
    a.type ≠ "mar" := by
  unfold parseSingleCore at h
  split at h
  · split at h
    · exact absurd h (by simp)
    · split at h
      · exact absurd h (by simp)
      · split at h
        · exact absurd h (by simp)
        · next abns heq =>
          cases h
          exact parse_abnormalities_ne_mar a _ abns heq ha
  · exact absurd h (by simp)

/-- No abnormality of an AST built by _parse_single_karyotype is tagged
mar. -/
theorem parse_single_ne_mar (a : Abnormality) (kary : String) (b : Bool)
    (ast : KaryotypeAST) (c2 : Int)
    (h : parse_single kary b = .ok (ast, c2)) (ha : a ∈ ast.abnormalities) :
    a.type ≠ "mar" := by
  unfold parse_single at h
  split at h
  · split at h
    · exact parseSingleCore_ne_mar a _ _ _ _ h ha
    · exact parseSingleCore_ne_mar a _ _ _ _ h ha
  · exact parseSingleCore_ne_mar a _ _ _ _ h ha

/-- No abnormality of any parsed cell line is tagged mar. -/
theorem parseCellLines_ne_mar (a : Abnormality) :
    ∀ (ls : List (List Char)) (lines : List CellLine),
      parseCellLines ls = .ok lines →
      ∀ cl ∈ lines, a ∈ cl.abnormalities → a.type ≠ "mar" := by
  intro ls
  induction ls with
  | nil =>
    intro lines h cl hcl _
    unfold parseCellLines at h
    cases h
    cases hcl
  | cons l ls ih =>
    intro lines h cl hcl ha
    unfold parseCellLines at h
    split at h
    · exact absurd h (by simp)
    · next pr heq1 =>
      split at h
      · exact absurd h (by simp)
      · next rest heq2 =>
        cases h
        rcases List.mem_cons.mp hcl with rfl | hcl2
        · exact parse_single_ne_mar a _ _ _ _ heq1 ha
        · exact ih rest heq2 cl hcl2 ha

/-- No abnormality of a parsed mosaic AST is tagged mar. -/
theorem parse_mosaic_ne_mar (a : Abnormality) (kary : String) (ast : KaryotypeAST)
    (h : parse_mosaic kary = .ok ast) (ha : a ∈ ast.abnormalities) :
    a.type ≠ "mar" := by
  unfold parse_mosaic at h
  split at h
  · exact absurd h (by simp)
  · exact absurd h (by simp)
  · next first rest heq =>
    cases h
    exact parseCellLines_ne_mar a _ _ heq first (List.mem_cons_self _ _) ha

/-- No abnormality of any AST returned by the parser is tagged mar. -/
theorem parse_ne_mar (a : Abnormality) (s : String) (ast : KaryotypeAST)
    (h : parse s = .ok ast) (ha : a ∈ ast.abnormalities) : a.type ≠ "mar" := by
  unfold parse at h
  split at h
  · exact absurd h (by simp)
  · split at h
    · exact parse_mosaic_ne_mar a _ _ h ha
    · split at h
      · exact absurd h (by simp)
      · next pr heq =>
        cases h
        exact parse_single_ne_mar a _ _ _ _ heq ha

/-- C10: on every AST the parser produces, the mar-scoped breakpoint rule
returns no message for any of its abnormalities, because the parser tags
markers +mar and never mar. -/
theorem c10_mar_rule_vacuous (s : String) (ast : KaryotypeAST)
    (h : parse s = .ok ast) (a : Abnormality) (ha : a ∈ ast.abnormalities)
    (ctx : KaryotypeAST) :
    validate_mar_breakpoints ctx a = [] := by
  unfold validate_mar_breakpoints
  rw [if_pos (parse_ne_mar a s ast h ha)]

/-- C10 witness: the theorem applied to the marker abnormality parsed from
47,XX,+mar. -/
theorem c10_witness : validate_mar_breakpoints astPlain abnMar = [] :=
  c10_mar_rule_vacuous "47,XX,+mar" ast47Mar rfl abnMar (by decide) astPlain

end ISCN
